import Mathlib

/-!
Shallow embedding of the bird-reddit session/request orchestration layer
(`src/bird_reddit/cookie_jar.py`, `src/bird_reddit/session_store.py`,
`src/bird_reddit/client.py`).

Python dicts are modelled as association lists with unique keys; dict
assignment `d[k] = v` is `dictInsert` (update the existing entry in place,
else append, matching insertion-ordered Python dicts).  JSON values are the
inductive `JVal`.  Python exceptions in a modelled fragment are `Option`
(`none` = the fragment raised); module-global state (`_jar`, `_cached`) and
file contents are passed explicitly.  Wall-clock time, sleeps and the
network are outside the model: the outcome of each network call is an
explicit input.
-/

namespace BirdReddit

/-- JSON values as decoded by `resp.json()` (Python `None`/`bool`/numbers/
`str`/`list`/`dict`).  Numbers are modelled as integers; no claim depends on
fractional JSON numbers. -/
inductive JVal where
  | null
  | bool (b : Bool)
  | num (n : Int)
  | str (s : String)
  | arr (elems : List JVal)
  | obj (fields : List (String × JVal))

/-- Python truthiness of a JSON value (`if x:`). -/
def JVal.truthy : JVal → Bool
  | .null => false
  | .bool b => b
  | .num n => n != 0
  | .str s => s != ""
  | .arr xs => !xs.isEmpty
  | .obj fs => !fs.isEmpty

/-- Python dict assignment `d[n] = v` on an insertion-ordered dict modelled
as an association list: replace the (first) entry with key `n` in place,
else append at the end. -/
def dictInsert {α : Type} : List (String × α) → String → α → List (String × α)
  | [], n, v => [(n, v)]
  | p :: rest, n, v => if p.1 = n then (n, v) :: rest else p :: dictInsert rest n v

/-- The key sequence of a modelled dict. -/
def keys {α : Type} (l : List (String × α)) : List String :=
  l.map Prod.fst

/-- `d.get(k, default)` on a value that must be a dict; `none` models the
`AttributeError` Python raises when `j` is not a dict. -/
def pyGetD (j : JVal) (k : String) (d : JVal) : Option JVal :=
  match j with
  | .obj fs => some ((fs.lookup k).getD d)
  | _ => none

/-- `d.get(k)` (default `None`) on a value that must be a dict; outer `none`
models the `AttributeError` when `j` is not a dict. -/
def pyGet1 (j : JVal) (k : String) : Option (Option JVal) :=
  match j with
  | .obj fs => some (fs.lookup k)
  | _ => none

/-- View a JSON value as a list (`for x in v`, `v[0]`, `len(v)` in the
shapes the client navigates); `none` when it is not a JSON array. -/
def asList1 : JVal → Option (List JVal) :=
  fun j => match j with
  | .arr xs => some xs
  | _ => none

/-- Python `x or y` for an optional string `x` (`None` and `""` are falsy). -/
def pyOrStr (x : Option String) (y : String) : String :=
  match x with
  | some v => if v = "" then y else v
  | none => y

/-- Python `s.startswith(pre)`. -/
def pyStartsWith (s pre : String) : Bool :=
  pre.data.isPrefixOf s.data

/-- The value of a digit run, `none` when empty or containing a non-digit. -/
def digitsVal (cs : List Char) : Option Nat :=
  if cs.isEmpty then none
  else cs.foldl (fun acc c =>
    acc.bind (fun n => if c.isDigit then some (n * 10 + (c.toNat - 48)) else none))
    (some 0)

/-- Python `int(s)` on the header strings the rate limiter parses: an
optional sign followed by digits; anything else raises `ValueError`,
modelled as `none`.  (Python also tolerates surrounding whitespace and
underscores; no claim depends on those inputs.) -/
def pyToInt (s : String) : Option Int :=
  match s.data with
  | '-' :: rest => (digitsVal rest).map (fun n => -(n : Int))
  | '+' :: rest => (digitsVal rest).map (fun n => (n : Int))
  | cs => (digitsVal cs).map (fun n => (n : Int))

namespace CookieJar

/-- The module-global `_jar` of `cookie_jar.py`: `None` before first use,
else a dict from cookie name to value. -/
abbrev CookieList := List (String × String)

abbrev Jar := Option CookieList

/-- The observable state of `cookie_jar.py`: the in-memory `_jar` and the
on-disk snapshot `{"cookies": ..., "collected_at": ...}` (absent when the
file is missing or unreadable).  Timestamps are opaque integers. -/
structure JarState where
  jar : Jar
  disk : Option (CookieList × Int)

/-- `update_jar_from_response` (cookie_jar.py lines 34-43): return
immediately when the response set no cookies; else upsert every name/value
pair into the jar (creating it if `None`) and write the snapshot with the
current time.  `writeOk` is the outcome of the best-effort `_write_jar`
(which swallows its own failures). -/
def update_jar_from_response (st : JarState) (respCookies : CookieList)
    (now : Int) (writeOk : Bool) : JarState :=
  if respCookies.isEmpty then st
  else
    let newJar := respCookies.foldl (fun acc p => dictInsert acc p.1 p.2) (st.jar.getD [])
    { jar := some newJar
      disk := if writeOk then some (newJar, now) else st.disk }

/-- `get_cookie` (cookie_jar.py lines 93-97): `None` when the jar is falsy
(`None` or empty), else a point lookup. -/
def get_cookie (jar : Jar) (name : String) : Option String :=
  match jar with
  | some j => if j.isEmpty then none else j.lookup name
  | none => none

/-- The `parts` list built by `build_cookie_header` (cookie_jar.py lines
100-109), kept as name/value pairs before rendering: every jar entry except
the reserved name `reddit_session`, then the reserved name bound to the
caller-supplied secret.  A falsy jar (`None` or empty) contributes nothing,
exactly as the skipped/empty loop does. -/
def buildCookieParts (jar : Jar) (reddit_session : String) : CookieList :=
  ((jar.getD []).filter (fun p => p.1 ≠ "reddit_session")) ++
    [("reddit_session", reddit_session)]

/-- `build_cookie_header` (cookie_jar.py lines 100-109): render each part as
`name=value` and join with `"; "`. -/
def build_cookie_header (jar : Jar) (reddit_session : String) : String :=
  String.intercalate "; " ((buildCookieParts jar reddit_session).map
    (fun p => p.1 ++ "=" ++ p.2))

/-- The value of the last occurrence of name `m` in a response's cookie
sequence (`none` when `m` never occurs): the value "last write wins"
promises for `m` after a merge. -/
def lastVal : CookieList → String → Option String
  | [], _ => none
  | p :: rest, m =>
    match lastVal rest m with
    | some v => some v
    | none => if p.1 = m then some p.2 else none

end CookieJar

namespace SessionStore

/-- The record persisted by `session_store.py` (`{"device_id": ...,
"created_at": ...}`). -/
structure SessionRecord where
  device_id : String
  created_at : String

/-- The observable state of `session_store.py`: the module-global `_cached`
(always a non-empty record when set, hence truthy) and the parsed contents
of the session file (`none` = missing or unparseable). -/
structure StoreState where
  cached : Option SessionRecord
  file : Option SessionRecord

/-- `_read_session` (session_store.py lines 12-19): the parsed file, kept
only when `data.get("device_id")` is truthy (a non-empty id). -/
def readSession (file : Option SessionRecord) : Option SessionRecord :=
  file.bind (fun r => if r.device_id ≠ "" then some r else none)

/-- `get_device_id` (session_store.py lines 30-43).  `fresh` is the record a
cache/file miss would generate (uuid4 + timestamp); `writeOk` is the outcome
of the best-effort `_write_session`.  Returns the id and the new store
state. -/
def get_device_id (st : StoreState) (fresh : SessionRecord) (writeOk : Bool) :
    String × StoreState :=
  match st.cached with
  | some c => (c.device_id, st)
  | none =>
    match readSession st.file with
    | some e => (e.device_id, { st with cached := some e })
    | none =>
      (fresh.device_id,
        { cached := some fresh
          file := if writeOk then some fresh else st.file })

end SessionStore

namespace Client

open CookieJar

/-- The `reset` field of `RateLimitState` (client.py lines 21-52): `none`
until a parseable `x-ratelimit-reset` header has been observed. -/
abbrev ResetState := Option Int

/-- The reset-field part of `RateLimitState.update` (client.py lines 38-42):
parse the `x-ratelimit-reset` header; a missing or malformed value leaves
the field at its previous value.  Header names are lower-cased, matching the
case-insensitive header map. -/
def updateReset (reset : ResetState) (headers : List (String × String)) : ResetState :=
  match headers.lookup "x-ratelimit-reset" with
  | some s =>
    match pyToInt s with
    | some n => some n
    | none => reset
  | none => reset

/-- `RateLimitState.pause_seconds` (client.py lines 49-52): note the Python
truthiness test `if self.reset:`, under which `reset == 0` takes the 30s
fallback branch. -/
def pause_seconds (reset : ResetState) : Int :=
  match reset with
  | some r => if r ≠ 0 then min (r + 1) 120 else 30
  | none => 30

/-- The failures `_post` can raise from a response status: the distinguished
`PermissionError` with remediation text, or the generic `HTTPError` from
`raise_for_status`. -/
inductive PostFailure where
  | blocked (msg : String)
  | httpError (status : Nat)

/-- The remediation message of the `PermissionError` raised on 403
(client.py lines 215-219). -/
def blockedMessage : String :=
  "403 Forbidden — Reddit blocked this action. " ++
  "Your account may need verification (check reddit.com in browser for CAPTCHA/email prompts), " ++
  "or the reddit_session cookie may be expired."

/-- The response-status handling of `_post` (client.py lines 214-221):
status 403 raises the distinguished blocked-action failure before
`raise_for_status` is reached; any other status ≥ 400 raises the generic
transport failure; otherwise the decoded body is returned. -/
def postStatusCheck (status : Nat) (body : JVal) : Except PostFailure JVal :=
  if status = 403 then .error (.blocked blockedMessage)
  else if 400 ≤ status then .error (.httpError status)
  else .ok body

/-- The form-payload preparation of `_post` (client.py lines 202-205):
`data = data or {}` then `if self.modhash: data["uh"] = self.modhash`.
`modhash` is `None` before the bootstrap attempt and a JSON value after;
injection happens only when it is truthy. -/
def postPayload (modhash : Option JVal) (data : List (String × JVal)) :
    List (String × JVal) :=
  match modhash with
  | some m => if m.truthy then dictInsert data "uh" m else data
  | none => data

/-- The thing-id normalization of `reply` (client.py lines 270-271): ids
already carrying a `t1_` or `t3_` prefix pass through; a bare id gets
`t3_` prepended. -/
def replyThingId (thing_id : String) : String :=
  if pyStartsWith thing_id "t1_" || pyStartsWith thing_id "t3_" then thing_id
  else "t3_" ++ thing_id

/-- The form body `reply` passes to `_post` (client.py lines 275-279). -/
def replyForm (thing_id text : String) : List (String × JVal) :=
  [("thing_id", .str (replyThingId thing_id)),
   ("text", .str text),
   ("api_type", .str "json")]

/-- `e.get("data", \x7b\x7d).get("children", [])` viewed as a list, the
children navigation `read_post` performs on each element of the two-element
response (client.py lines 256 and 262).  `none` models the exception raised
when a navigated value is not a dict; the children value is modelled as a
JSON array (the shape the listing endpoint returns). -/
def listingChildren (e : JVal) : Option (List JVal) :=
  match pyGetD e "data" (.obj []) with
  | none => none
  | some d =>
    match pyGetD d "children" (.arr []) with
    | none => none
    | some ch => asList1 ch

/-- One element of the comment comprehension (client.py lines 260-264):
evaluate `c.get("kind") == "t1"`, and for a match produce
`some (c.get("data", \x7b\x7d))`, else `none`; the outer `none` is the
exception raised when `c` is not a dict. -/
def commentPick (c : JVal) : Option (Option JVal) :=
  match pyGet1 c "kind" with
  | none => none
  | some k =>
    match k with
    | some (.str s) =>
      if s = "t1" then (pyGetD c "data" (.obj [])).map some
      else some none
    | _ => some none

/-- The response post-processing of `read_post` (client.py lines 252-265):
`post` from the first element's first child, `comments` from the second
element's children filtered to kind `t1`.  The returned pair is the
`\x7b"post": post, "comments": comments\x7d` dict; `none` models a raised
exception. -/
def readPostExtract (data : JVal) : Option (Option JVal × List JVal) :=
  match data with
  | .arr elems =>
    let postPart : Option (Option JVal) :=
      match elems with
      | e0 :: _ =>
        match listingChildren e0 with
        | none => none
        | some [] => some none
        | some (c0 :: _) =>
          match pyGetD c0 "data" (.obj []) with
          | none => none
          | some p => some (some p)
      | [] => some none
    match postPart with
    | none => none
    | some post =>
      let commentsPart : Option (List JVal) :=
        match elems with
        | _ :: e1 :: _ =>
          match listingChildren e1 with
          | none => none
          | some ch =>
            match ch.mapM commentPick with
            | none => none
            | some picked => some (picked.filterMap id)
        | _ => some []
      match commentsPart with
      | none => none
      | some comments => some (post, comments)
  | _ => some (none, [])

/-- A child record is a true comment record: a dict whose `kind` field is
the string `t1` (the filter condition of client.py line 263, stated on
records). -/
def isT1 (c : JVal) : Bool :=
  match c with
  | .obj fs =>
    match fs.lookup "kind" with
    | some (.str s) => s = "t1"
    | _ => false
  | _ => false

/-- `c.get("data", \x7b\x7d)` on a record already known to be a dict (the
projection applied to each kept comment and to the post child). -/
def recData (c : JVal) : JVal :=
  match c with
  | .obj fs => (fs.lookup "data").getD (.obj [])
  | _ => .obj []

/-- The in-memory fields of a `RedditClient` instance touched by `_init`
(client.py lines 55-67): construction leaves every derived field `None` and
the instance uninitialized. -/
structure ClientState where
  reddit_session : String
  no_jitter : Bool
  device_id : Option String
  modhash : Option JVal
  csrf_token : Option String
  loid : Option String
  cookie_header : Option String
  initialized : Bool

/-- `RedditClient.__init__` (client.py lines 56-67). -/
def mkClient (reddit_session : String) (no_jitter : Bool) : ClientState :=
  { reddit_session := reddit_session
    no_jitter := no_jitter
    device_id := none
    modhash := none
    csrf_token := none
    loid := none
    cookie_header := none
    initialized := false }

/-- The outcomes of the fallible steps of `_init`, supplied by the
environment: each network or storage interaction either succeeds with a
value or raises.  The jar fields give the module-global jar as each step
leaves it (a failed step may still have merged cookies before raising, since
`_raw_get` merges before `raise_for_status`); the `HeaderRebuilt` flags
record whether the corresponding `_raw_get` got far enough to rebuild
`self.cookie_header` (client.py line 168). -/
structure InitEnv where
  deviceIdOutcome : Except Unit String
  freshUuid : String
  jarAfterCollect : CookieJar.Jar
  meOutcome : Except Unit JVal
  jarAfterMe : CookieJar.Jar
  meHeaderRebuilt : Bool
  jarAfterPopular : CookieJar.Jar
  popularHeaderRebuilt : Bool

/-- The modhash assignment of `_init` step 6 (client.py lines 99-106): an
exception anywhere in the `try` (including `.get` on a non-dict `data`
value) yields `""`; a non-dict payload leaves the field untouched. -/
def modhashFromMe (prev : Option JVal) (res : Except Unit JVal) : Option JVal :=
  match res with
  | .error _ => some (.str "")
  | .ok d =>
    match d with
    | .obj fs =>
      match fs.lookup "data" with
      | some (.obj inner) => some ((inner.lookup "modhash").getD (.str ""))
      | some _ => some (.str "")
      | none => some ((fs.lookup "modhash").getD (.str ""))
    | _ => prev

/-- `_init` (client.py lines 73-119), with each step's fallible interaction
drawn from `env`.  Step order and fallback values follow the source:
device id with uuid fallback, jar warm-up (best effort), cookie header from
the post-warm-up jar, csrf/loid from the jar with `or ""`, the `/api/me`
bootstrap (modhash, refreshed csrf/loid with `or previous`), the popular
warm-up (result and failure ignored), and unconditionally
`self._initialized = True`. -/
def runInit (s : ClientState) (env : InitEnv) : ClientState :=
  let device_id :=
    match env.deviceIdOutcome with
    | .ok i => i
    | .error _ => env.freshUuid
  let header3 := CookieJar.build_cookie_header env.jarAfterCollect s.reddit_session
  let csrf4 := pyOrStr (CookieJar.get_cookie env.jarAfterCollect "csrf_token") ""
  let loid4 := pyOrStr (CookieJar.get_cookie env.jarAfterCollect "loid") ""
  let header6 :=
    if env.meHeaderRebuilt then
      CookieJar.build_cookie_header env.jarAfterMe s.reddit_session
    else header3
  let modhash6 := modhashFromMe s.modhash env.meOutcome
  let csrf7 := pyOrStr (CookieJar.get_cookie env.jarAfterMe "csrf_token") csrf4
  let loid7 := pyOrStr (CookieJar.get_cookie env.jarAfterMe "loid") loid4
  let header8 :=
    if env.popularHeaderRebuilt then
      CookieJar.build_cookie_header env.jarAfterPopular s.reddit_session
    else header6
  { s with
    device_id := some device_id
    cookie_header := some header8
    csrf_token := some csrf7
    loid := some loid7
    modhash := modhash6
    initialized := true }

/-- `_ensure_init` (client.py lines 69-71): run `_init` only when the
instance is not yet initialized. -/
def ensureInit (s : ClientState) (env : InitEnv) : ClientState :=
  if s.initialized then s else runInit s env

end Client

/-! ## Lemmas about dict assignment on association lists -/

theorem lookup_cons {α : Type} (k : String) (v : α) (t : List (String × α)) (m : String) :
    ((k, v) :: t).lookup m = if m = k then some v else t.lookup m := by
  by_cases h : m = k
  · simp [List.lookup, h]
  · have hb : (m == k) = false := by simp [h]
    simp [List.lookup, hb, h]

theorem keys_cons {α : Type} (p : String × α) (t : List (String × α)) :
    keys (p :: t) = p.1 :: keys t := rfl

theorem lookup_dictInsert {α : Type} (l : List (String × α)) (n : String) (v : α)
    (m : String) :
    (dictInsert l n v).lookup m = if m = n then some v else l.lookup m := by
  induction l with
  | nil =>
    show ((n, v) :: []).lookup m = _
    rw [lookup_cons]
  | cons p t ih =>
    obtain ⟨k, w⟩ := p
    by_cases hp : k = n
    · subst hp
      show (if k = k then ((k, v) :: t) else _).lookup m = _
      rw [if_pos rfl, lookup_cons, lookup_cons]
      by_cases hm : m = k <;> simp [hm]
    · show (if k = n then _ else (k, w) :: dictInsert t n v).lookup m = _
      rw [if_neg hp, lookup_cons, ih]
      by_cases hm : m = k
      · have hmn : m ≠ n := fun hc => hp (hm ▸ hc)
        rw [if_pos hm, if_neg hmn, lookup_cons, if_pos hm]
      · rw [if_neg hm]
        by_cases hn : m = n
        · rw [if_pos hn, if_pos hn]
        · rw [if_neg hn, if_neg hn, lookup_cons, if_neg hm]

theorem keys_dictInsert_of_mem {α : Type} (l : List (String × α)) (n : String) (v : α)
    (h : n ∈ keys l) :
    keys (dictInsert l n v) = keys l := by
  induction l with
  | nil => exact absurd h (List.not_mem_nil n)
  | cons p t ih =>
    by_cases hp : p.1 = n
    · show keys (if p.1 = n then (n, v) :: t else _) = _
      rw [if_pos hp, keys_cons, keys_cons, hp]
    · rw [keys_cons, List.mem_cons] at h
      rcases h with h | h

      · exact absurd h.symm hp
      · show keys (if p.1 = n then _ else p :: dictInsert t n v) = _
        rw [if_neg hp, keys_cons, keys_cons, ih h]

theorem keys_dictInsert_of_not_mem {α : Type} (l : List (String × α)) (n : String) (v : α)
    (h : n ∉ keys l) :
    keys (dictInsert l n v) = keys l ++ [n] := by
  induction l with
  | nil => rfl
  | cons p t ih =>
    rw [keys_cons, List.mem_cons] at h
    push_neg at h
    have hp : p.1 ≠ n := fun hc => h.1 hc.symm
    show keys (if p.1 = n then _ else p :: dictInsert t n v) = _
    rw [if_neg hp, keys_cons, keys_cons, ih h.2, List.cons_append]

theorem mem_keys_dictInsert {α : Type} (l : List (String × α)) (n : String) (v : α)
    (m : String) :
    m ∈ keys (dictInsert l n v) ↔ m ∈ keys l ∨ m = n := by
  by_cases h : n ∈ keys l
  · rw [keys_dictInsert_of_mem l n v h]
    constructor
    · exact Or.inl
    · rintro (hm | hm)
      · exact hm
      · exact hm ▸ h
  · rw [keys_dictInsert_of_not_mem l n v h, List.mem_append, List.mem_singleton]

theorem nodup_keys_dictInsert {α : Type} (l : List (String × α)) (n : String) (v : α)
    (h : (keys l).Nodup) :
    (keys (dictInsert l n v)).Nodup := by
  by_cases hm : n ∈ keys l
  · rw [keys_dictInsert_of_mem l n v hm]; exact h
  · rw [keys_dictInsert_of_not_mem l n v hm]
    simp [List.nodup_append, h, hm]

theorem lookup_eq_none_of_not_mem_keys {α : Type} (l : List (String × α)) (m : String)
    (h : m ∉ keys l) : l.lookup m = none := by
  induction l with
  | nil => rfl
  | cons p t ih =>
    obtain ⟨k, w⟩ := p
    rw [keys_cons, List.mem_cons] at h
    push_neg at h
    rw [lookup_cons, if_neg h.1, ih h.2]

theorem assoc_ext {α : Type} (l : List (String × α)) :
    ∀ l' : List (String × α), keys l = keys l' → (keys l).Nodup →
    (∀ m, l.lookup m = l'.lookup m) → l = l' := by
  induction l with
  | nil =>
    intro l' hk _ _
    cases l' with
    | nil => rfl
    | cons q t' => exact absurd hk (by simp [keys])
  | cons p t ih =>
    intro l' hk hnd hl
    obtain ⟨k, w⟩ := p
    cases l' with
    | nil => exact absurd hk (by simp [keys])
    | cons q t' =>
      obtain ⟨k', w'⟩ := q
      rw [keys_cons, keys_cons] at hk
      injection hk with hk1 hk2
      rw [keys_cons, List.nodup_cons] at hnd
      have hval : w = w' := by
        have h0 := hl k
        rw [lookup_cons, lookup_cons, if_pos rfl] at h0
        simp only at hk1
        rw [if_pos hk1] at h0
        exact Option.some.inj h0
      have hrest : t = t' := by
        refine ih t' hk2 hnd.2 ?_
        intro m
        by_cases hm : m = k
        · subst hm
          rw [lookup_eq_none_of_not_mem_keys t m hnd.1,
              lookup_eq_none_of_not_mem_keys t' m (hk2 ▸ hnd.1)]
        · have h0 := hl m
          simp only at hk1
          have hm' : m ≠ k' := fun hc => hm (hc.trans hk1.symm)
          rw [lookup_cons, lookup_cons, if_neg hm, if_neg hm'] at h0
          exact h0
      simp only at hk1
      rw [hk1, hval, hrest]

/-! ## Lemmas about the jar merge fold -/

theorem lookup_foldl_dictInsert (cs : CookieJar.CookieList) :
    ∀ (j : CookieJar.CookieList) (m : String),
    (cs.foldl (fun acc p => dictInsert acc p.1 p.2) j).lookup m =
      match CookieJar.lastVal cs m with
      | some v => some v
      | none => j.lookup m := by
  induction cs with
  | nil => intro j m; rfl
  | cons p t ih =>
    intro j m
    rw [List.foldl_cons, ih]
    show _ = (match (match CookieJar.lastVal t m with
      | some v => some v
      | none => if p.1 = m then some p.2 else none) with
      | some v => some v
      | none => j.lookup m)
    cases h : CookieJar.lastVal t m with
    | some v => rfl
    | none =>
      by_cases hm : p.1 = m
      · rw [if_pos hm]
        show (dictInsert j p.1 p.2).lookup m = some p.2
        rw [lookup_dictInsert, if_pos hm.symm]
      · rw [if_neg hm]
        show (dictInsert j p.1 p.2).lookup m = j.lookup m
        rw [lookup_dictInsert, if_neg (fun hc => hm hc.symm)]

theorem mem_keys_foldl_of_mem (cs : CookieJar.CookieList) :
    ∀ (j : CookieJar.CookieList) (m : String), m ∈ keys j →
    m ∈ keys (cs.foldl (fun acc p => dictInsert acc p.1 p.2) j) := by
  induction cs with
  | nil => intro j m h; exact h
  | cons p t ih =>
    intro j m h
    rw [List.foldl_cons]
    exact ih _ m ((mem_keys_dictInsert j p.1 p.2 m).mpr (Or.inl h))

theorem mem_keys_foldl_of_mem_cs (cs : CookieJar.CookieList) :
    ∀ (j : CookieJar.CookieList) (m : String), m ∈ keys cs →
    m ∈ keys (cs.foldl (fun acc p => dictInsert acc p.1 p.2) j) := by
  induction cs with
  | nil => intro j m h; exact absurd h (List.not_mem_nil m)
  | cons p t ih =>
    intro j m h
    rw [keys_cons, List.mem_cons] at h
    rw [List.foldl_cons]
    rcases h with h | h
    · exact mem_keys_foldl_of_mem t _ m
        ((mem_keys_dictInsert j p.1 p.2 m).mpr (Or.inr h))
    · exact ih _ m h

theorem keys_foldl_of_all_mem (cs : CookieJar.CookieList) :
    ∀ (j : CookieJar.CookieList), (∀ p ∈ cs, p.1 ∈ keys j) →
    keys (cs.foldl (fun acc p => dictInsert acc p.1 p.2) j) = keys j := by
  induction cs with
  | nil => intro j _; rfl
  | cons p t ih =>
    intro j h
    rw [List.foldl_cons]
    have hkeq : keys (dictInsert j p.1 p.2) = keys j :=
      keys_dictInsert_of_mem j p.1 p.2 (h p (List.mem_cons_self p t))
    rw [ih _ (fun q hq => hkeq ▸ h q (List.mem_cons_of_mem p hq)), hkeq]

theorem nodup_keys_foldl (cs : CookieJar.CookieList) :
    ∀ (j : CookieJar.CookieList), (keys j).Nodup →
    (keys (cs.foldl (fun acc p => dictInsert acc p.1 p.2) j)).Nodup := by
  induction cs with
  | nil => intro j h; exact h
  | cons p t ih =>
    intro j h
    rw [List.foldl_cons]
    exact ih _ (nodup_keys_dictInsert j p.1 p.2 h)

theorem foldl_dictInsert_idem (cs j : CookieJar.CookieList)
    (hnd : (keys j).Nodup) :
    cs.foldl (fun acc p => dictInsert acc p.1 p.2)
      (cs.foldl (fun acc p => dictInsert acc p.1 p.2) j) =
    cs.foldl (fun acc p => dictInsert acc p.1 p.2) j := by
  have hall : ∀ p ∈ cs, p.1 ∈ keys (cs.foldl (fun acc p => dictInsert acc p.1 p.2) j) :=
    fun p hp => mem_keys_foldl_of_mem_cs cs j p.1
      (List.mem_map.mpr ⟨p, hp, rfl⟩)
  refine assoc_ext _ _ (keys_foldl_of_all_mem cs _ hall) ?_ ?_
  · rw [keys_foldl_of_all_mem cs _ hall]
    exact nodup_keys_foldl cs j hnd
  · intro m
    rw [lookup_foldl_dictInsert, lookup_foldl_dictInsert]
    cases CookieJar.lastVal cs m with
    | some v => rfl
    | none => rfl

theorem filter_ne_then_eq (l : CookieJar.CookieList) (r : String) :
    ((l.filter (fun p => p.1 ≠ r)).filter (fun p => p.1 = r)) = [] := by
  induction l with
  | nil => rfl
  | cons p t ih =>
    by_cases h : p.1 = r
    · simp [List.filter_cons, h, ih]
    · simp [List.filter_cons, h, ih]

/-! ## Lemmas about the read-post comment comprehension -/

theorem commentPick_obj (fs : List (String × JVal)) :
    Client.commentPick (JVal.obj fs) =
      some (if Client.isT1 (JVal.obj fs) = true
        then some (Client.recData (JVal.obj fs)) else none) := by
  unfold Client.commentPick Client.isT1 Client.recData pyGet1 pyGetD
  cases h : fs.lookup "kind" with
  | none => simp [h]
  | some k =>
    cases k with
    | null => simp [h]
    | bool b => simp [h]
    | num n => simp [h]
    | str s =>
      by_cases hs : s = "t1"
      · simp [h, hs]
      · simp [h, hs]
    | arr xs => simp [h]
    | obj gs => simp [h]

theorem mapM_commentPick (cs : List JVal)
    (hcs : ∀ c ∈ cs, ∃ fs, c = JVal.obj fs) :
    cs.mapM Client.commentPick =
      some (cs.map (fun c =>
        if Client.isT1 c = true then some (Client.recData c) else none)) := by
  induction cs with
  | nil => rfl
  | cons c t ih =>
    obtain ⟨fs, rfl⟩ := hcs c (List.mem_cons_self c t)
    have ht := ih (fun x hx => hcs x (List.mem_cons_of_mem _ hx))
    rw [List.mapM_cons, commentPick_obj, ht]
    rfl

theorem filterMap_pick (cs : List JVal) :
    (cs.map (fun c =>
      if Client.isT1 c = true then some (Client.recData c) else none)).filterMap id =
      (cs.filter Client.isT1).map Client.recData := by
  induction cs with
  | nil => rfl
  | cons c t ih =>
    by_cases h : Client.isT1 c = true
    · simp [h, ih, List.filter_cons]
    · have h' : Client.isT1 c = false := by
        revert h
        cases Client.isT1 c <;> simp
      simp [h', ih, List.filter_cons]

/-! ## Claims -/

/-- C1: for every jar contents and every caller-supplied secret, the parts
of the assembled cookie header contain exactly one entry under the reserved
name `reddit_session`, and that entry is bound to the caller-supplied
secret; every jar entry under the reserved name is excluded from the
serialization. -/
theorem claim_C1_header_single_reserved_name (jar : CookieJar.Jar) (secret : String) :
    (CookieJar.buildCookieParts jar secret).filter
      (fun p => p.1 = "reddit_session") = [("reddit_session", secret)] ∧
    ((CookieJar.buildCookieParts jar secret).filter
      (fun p => p.1 = "reddit_session")).length = 1 := by
  have h : (CookieJar.buildCookieParts jar secret).filter
      (fun p => p.1 = "reddit_session") = [("reddit_session", secret)] := by
    unfold CookieJar.buildCookieParts
    rw [List.filter_append, filter_ne_then_eq]
    simp [List.filter_cons]
  exact ⟨h, by rw [h]; rfl⟩

/-- C2: a POST whose response carries status 403 raises the distinguished
blocked-action failure with its remediation message, never the generic
transport failure; any other non-success status (≥ 400) raises the generic
transport failure. -/
theorem claim_C2_post_403_blocked (status : Nat) (body : JVal) :
    (status = 403 →
      Client.postStatusCheck status body =
        Except.error (Client.PostFailure.blocked Client.blockedMessage)) ∧
    (status ≠ 403 → 400 ≤ status →
      Client.postStatusCheck status body =
        Except.error (Client.PostFailure.httpError status)) := by
  constructor
  · intro h
    subst h
    rfl
  · intro h1 h2
    unfold Client.postStatusCheck
    rw [if_neg h1, if_pos h2]

theorem claim_C2_witness :
    Client.postStatusCheck 403 JVal.null =
      Except.error (Client.PostFailure.blocked Client.blockedMessage) ∧
    Client.postStatusCheck 500 JVal.null =
      Except.error (Client.PostFailure.httpError 500) :=
  ⟨(claim_C2_post_403_blocked 403 JVal.null).1 rfl,
   (claim_C2_post_403_blocked 500 JVal.null).2 (by decide) (by decide)⟩

/-- C5, as stated, is false at `reset = 0`: a response header
`x-ratelimit-reset: 0` makes reset known, yet `pause_seconds` takes the 30s
fallback branch because the source tests `if self.reset:` (Python
truthiness), not `is not None`; `min(0 + 1, 120) = 1 ≠ 30`. -/
theorem claim_C5_counterexample :
    Client.pause_seconds (Client.updateReset none [("x-ratelimit-reset", "0")]) = 30 ∧
    (30 : Int) ≠ min ((0 : Int) + 1) 120 := by
  constructor
  · show (if (0 : Int) ≠ 0 then min ((0 : Int) + 1) 120 else 30) = 30
    rw [if_neg (by decide)]
  · decide

/-- C5 amended: `pause_seconds` returns `min(reset + 1, 120)` whenever
reset-in-seconds is known and nonzero, and the flat 30-second fallback when
it is unknown or zero. -/
theorem claim_C5_pause_duration (r : Int) :
    (r ≠ 0 → Client.pause_seconds (some r) = min (r + 1) 120) ∧
    Client.pause_seconds none = 30 ∧
    Client.pause_seconds (some 0) = 30 := by
  refine ⟨?_, rfl, ?_⟩
  · intro h
    show (if r ≠ 0 then min (r + 1) 120 else 30) = min (r + 1) 120
    rw [if_pos h]
  · show (if (0 : Int) ≠ 0 then min ((0 : Int) + 1) 120 else 30) = 30
    rw [if_neg (by decide)]

theorem claim_C5_witness :
    Client.pause_seconds (some 10) = min ((10 : Int) + 1) 120 ∧
    Client.pause_seconds none = 30 :=
  ⟨(claim_C5_pause_duration 10).1 (by decide), (claim_C5_pause_duration 10).2.1⟩

/-- C8, as stated, is false when the current anti-CSRF token is the empty
string (the value `_init` installs when the bootstrap call fails): the
source guards the injection with `if self.modhash:` (truthiness), so the
payload is sent without the `uh` field. -/
theorem claim_C8_counterexample :
    Client.postPayload (Client.modhashFromMe none (Except.error ())) [] = [] ∧
    (Client.postPayload (Client.modhashFromMe none (Except.error ()))
      []).lookup "uh" = none := by
  constructor
  · rfl
  · rfl

/-- C8 amended: a generic POST injects the current anti-CSRF form token
into the form payload under `uh` whenever the token is truthy (present and
non-empty); with a falsy token (unset or empty) the payload is sent
unchanged. -/
theorem claim_C8_modhash_injection (m : JVal) (d : List (String × JVal)) :
    (m.truthy = true → (Client.postPayload (some m) d).lookup "uh" = some m) ∧
    (m.truthy = false → Client.postPayload (some m) d = d) ∧
    Client.postPayload none d = d := by
  refine ⟨?_, ?_, rfl⟩
  · intro h
    show (if m.truthy = true then dictInsert d "uh" m else d).lookup "uh" = some m
    rw [if_pos h, lookup_dictInsert, if_pos rfl]
  · intro h
    show (if m.truthy = true then dictInsert d "uh" m else d) = d
    rw [h, if_neg Bool.false_ne_true]

theorem claim_C8_witness :
    (Client.postPayload (some (JVal.str "token123")) []).lookup "uh" =
      some (JVal.str "token123") ∧
    Client.postPayload (some (JVal.str "")) [("text", JVal.str "hi")] =
      [("text", JVal.str "hi")] :=
  ⟨(claim_C8_modhash_injection (JVal.str "token123") []).1 (by decide),
   (claim_C8_modhash_injection (JVal.str "") [("text", JVal.str "hi")]).2.1 (by decide)⟩

/-- C9: for every call to `reply` whose thing id starts with neither `t1_`
nor `t3_`, the POST form carries `thing_id` equal to `t3_` prepended to the
given id. -/
theorem claim_C9_reply_bare_id_is_post (thing_id text : String)
    (h1 : pyStartsWith thing_id "t1_" = false)
    (h3 : pyStartsWith thing_id "t3_" = false) :
    (Client.replyForm thing_id text).lookup "thing_id" =
      some (JVal.str ("t3_" ++ thing_id)) := by
  unfold Client.replyForm Client.replyThingId
  rw [h1, h3]
  simp [lookup_cons]

theorem claim_C9_witness :
    (Client.replyForm "abc123" "hello").lookup "thing_id" =
      some (JVal.str ("t3_" ++ "abc123")) :=
  claim_C9_reply_bare_id_is_post "abc123" "hello" (by decide) (by decide)

/-- C10: merging a response that set no cookies is a complete no-op: the
in-memory jar and the on-disk snapshot, including its collected-at
timestamp, are returned entirely unchanged. -/
theorem claim_C10_empty_merge_noop (st : CookieJar.JarState) (now : Int)
    (writeOk : Bool) :
    CookieJar.update_jar_from_response st [] now writeOk = st := rfl

/-- C6: jar merge upserts every name/value pair of the response into the
jar: the last observation of a name wins (its final value is the last value
the response carries for that name), no existing name is ever removed, and
merging the same response twice yields the same jar contents as merging it
once.  The hypothesis states the dict well-formedness invariant (unique
keys) every Python dict satisfies. -/
theorem claim_C6_jar_merge_upsert (st : CookieJar.JarState)
    (cs : CookieJar.CookieList) (now now' : Int) (w w' : Bool)
    (hnd : (keys (st.jar.getD [])).Nodup) :
    (∀ n v, CookieJar.lastVal cs n = some v →
      ((CookieJar.update_jar_from_response st cs now w).jar.getD []).lookup n =
        some v) ∧
    (∀ n, n ∈ keys (st.jar.getD []) →
      n ∈ keys ((CookieJar.update_jar_from_response st cs now w).jar.getD [])) ∧
    (CookieJar.update_jar_from_response
        (CookieJar.update_jar_from_response st cs now w) cs now' w').jar =
      (CookieJar.update_jar_from_response st cs now w).jar := by
  cases cs with
  | nil =>
    refine ⟨?_, ?_, rfl⟩
    · intro n v h
      simp [CookieJar.lastVal] at h
    · intro n h
      exact h
  | cons c ct =>
    refine ⟨?_, ?_, ?_⟩
    · intro n v h
      show ((c :: ct).foldl (fun acc p => dictInsert acc p.1 p.2)
        (st.jar.getD [])).lookup n = some v
      rw [lookup_foldl_dictInsert, h]
    · intro n h
      show n ∈ keys ((c :: ct).foldl (fun acc p => dictInsert acc p.1 p.2)
        (st.jar.getD []))
      exact mem_keys_foldl_of_mem (c :: ct) _ n h
    · show some ((c :: ct).foldl (fun acc p => dictInsert acc p.1 p.2)
          ((c :: ct).foldl (fun acc p => dictInsert acc p.1 p.2) (st.jar.getD []))) =
        some ((c :: ct).foldl (fun acc p => dictInsert acc p.1 p.2) (st.jar.getD []))
      exact congrArg some (foldl_dictInsert_idem (c :: ct) _ hnd)

theorem claim_C6_witness :
    ((CookieJar.update_jar_from_response
        { jar := some [("a", "1")], disk := none }
        [("a", "2"), ("b", "3"), ("a", "4")] 5 true).jar.getD []).lookup "a" =
      some "4" ∧
    (CookieJar.update_jar_from_response
        (CookieJar.update_jar_from_response
          { jar := some [("a", "1")], disk := none }
          [("a", "2"), ("b", "3"), ("a", "4")] 5 true)
        [("a", "2"), ("b", "3"), ("a", "4")] 6 true).jar =
      (CookieJar.update_jar_from_response
        { jar := some [("a", "1")], disk := none }
        [("a", "2"), ("b", "3"), ("a", "4")] 5 true).jar := by
  have h := claim_C6_jar_merge_upsert
    { jar := some [("a", "1")], disk := none }
    [("a", "2"), ("b", "3"), ("a", "4")] 5 6 true true (by decide)
  exact ⟨h.1 "a" "4" (by decide), h.2.2⟩

/-- C7: identity resolution is idempotent: a second call started from the
store state the first call leaves behind returns the same identifier, and
when the backing file exists and parses (its id is truthy), a fresh-process
call returns the persisted identifier and leaves the file unchanged. -/
theorem claim_C7_identity_idempotent (st : SessionStore.StoreState)
    (fresh fresh' : SessionStore.SessionRecord) (w w' : Bool) :
    (SessionStore.get_device_id
        (SessionStore.get_device_id st fresh w).2 fresh' w').1 =
      (SessionStore.get_device_id st fresh w).1 ∧
    (∀ r : SessionStore.SessionRecord, st.cached = none → st.file = some r →
      r.device_id ≠ "" →
      (SessionStore.get_device_id st fresh w).1 = r.device_id ∧
      (SessionStore.get_device_id st fresh w).2.file = st.file) := by
  constructor
  · cases hc : st.cached with
    | some c => simp [SessionStore.get_device_id, hc]
    | none =>
      cases hr : SessionStore.readSession st.file with
      | some e => simp [SessionStore.get_device_id, hc, hr]
      | none => simp [SessionStore.get_device_id, hc, hr]
  · intro r h1 h2 h3
    have hr : SessionStore.readSession st.file = some r := by
      rw [h2]
      simp [SessionStore.readSession, h3]
    constructor
    · simp [SessionStore.get_device_id, h1, hr]
    · simp [SessionStore.get_device_id, h1, hr]

theorem claim_C7_witness :
    (SessionStore.get_device_id
        { cached := none, file := some { device_id := "id-1", created_at := "t0" } }
        { device_id := "fresh-id", created_at := "t1" } true).1 = "id-1" ∧
    (SessionStore.get_device_id
        (SessionStore.get_device_id
          { cached := none, file := some { device_id := "id-1", created_at := "t0" } }
          { device_id := "fresh-id", created_at := "t1" } true).2
        { device_id := "other", created_at := "t2" } false).1 =
      (SessionStore.get_device_id
        { cached := none, file := some { device_id := "id-1", created_at := "t0" } }
        { device_id := "fresh-id", created_at := "t1" } true).1 := by
  have h := claim_C7_identity_idempotent
    { cached := none, file := some { device_id := "id-1", created_at := "t0" } }
    { device_id := "fresh-id", created_at := "t1" }
    { device_id := "other", created_at := "t2" } true false
  exact ⟨(h.2 { device_id := "id-1", created_at := "t0" } rfl rfl (by decide)).1, h.1⟩

/-- C3: a freshly constructed client is uninitialized; `_init` leaves the
client initialized for every combination of step outcomes (no step failure
prevents initialization, and `_init` is a total function of the outcomes, so
no bootstrap error propagates); `_ensure_init` on an initialized client is a
no-op and on an uninitialized client performs exactly the `_init`
transition, so a second `_ensure_init` never transitions again. -/
theorem claim_C3_init_once_unconditional (s : Client.ClientState)
    (env env' : Client.InitEnv) (secret : String) (nj : Bool) :
    (Client.mkClient secret nj).initialized = false ∧
    (Client.runInit s env).initialized = true ∧
    (s.initialized = true → Client.ensureInit s env = s) ∧
    (s.initialized = false → Client.ensureInit s env = Client.runInit s env) ∧
    Client.ensureInit (Client.ensureInit s env) env' = Client.ensureInit s env := by
  refine ⟨rfl, rfl, ?_, ?_, ?_⟩
  · intro h
    unfold Client.ensureInit
    rw [if_pos h]
  · intro h
    unfold Client.ensureInit
    rw [if_neg (by simp [h])]
  · by_cases h : s.initialized = true
    · have he : Client.ensureInit s env = s := by
        unfold Client.ensureInit
        rw [if_pos h]
      rw [he]
      unfold Client.ensureInit
      rw [if_pos h]
    · have hb : s.initialized = false := by
        revert h
        cases s.initialized <;> simp
      have he : Client.ensureInit s env = Client.runInit s env := by
        unfold Client.ensureInit
        rw [if_neg (by simp [hb])]
      rw [he]
      have hi : (Client.runInit s env).initialized = true := rfl
      unfold Client.ensureInit
      rw [if_pos hi]

theorem claim_C3_witness :
    (Client.runInit (Client.mkClient "secret" false)
      ⟨Except.ok "device", "uuid", none, Except.error (), none, false, none,
        false⟩).initialized = true ∧
    Client.ensureInit (Client.mkClient "secret" false)
      ⟨Except.ok "device", "uuid", none, Except.error (), none, false, none, false⟩ =
      Client.runInit (Client.mkClient "secret" false)
      ⟨Except.ok "device", "uuid", none, Except.error (), none, false, none, false⟩ := by
  have h := claim_C3_init_once_unconditional (Client.mkClient "secret" false)
    ⟨Except.ok "device", "uuid", none, Except.error (), none, false, none, false⟩
    ⟨Except.ok "device", "uuid", none, Except.error (), none, false, none, false⟩
    "secret" false
  exact ⟨h.2.1, h.2.2.2.1 rfl⟩

/-- C4: for a two-element read-post response whose first element is a
listing with children `p0 :: pr` and whose second element is a listing with
children `cs` (each child a record), `read_post` returns the post record
extracted from the first child (`p0`'s `data` field) paired with exactly
the `data` projections of those children of the second element whose kind
is `t1`, in their original order; records of any other kind (such as `more`
placeholders) are discarded. -/
theorem claim_C4_read_post_filtering (e0 e1 p0 pd : JVal) (pr cs : List JVal)
    (h0 : Client.listingChildren e0 = some (p0 :: pr))
    (h1 : Client.listingChildren e1 = some cs)
    (hp : pyGetD p0 "data" (JVal.obj []) = some pd)
    (hcs : ∀ c ∈ cs, ∃ fs, c = JVal.obj fs) :
    Client.readPostExtract (JVal.arr [e0, e1]) =
      some (some pd, (cs.filter Client.isT1).map Client.recData) := by
  simp only [Client.readPostExtract, h0, hp, h1, mapM_commentPick cs hcs,
    filterMap_pick]

theorem claim_C4_witness :
    Client.readPostExtract (JVal.arr
      [JVal.obj [("data", JVal.obj [("children", JVal.arr
          [JVal.obj [("kind", JVal.str "t3"),
                     ("data", JVal.obj [("id", JVal.str "p1")])]])])],
       JVal.obj [("data", JVal.obj [("children", JVal.arr
          [JVal.obj [("kind", JVal.str "more"),
                     ("data", JVal.obj [("count", JVal.num 3)])],
           JVal.obj [("kind", JVal.str "t1"),
                     ("data", JVal.obj [("body", JVal.str "one")])],
           JVal.obj [("kind", JVal.str "t1"),
                     ("data", JVal.obj [("body", JVal.str "two")])]])])]]) =
      some (some (JVal.obj [("id", JVal.str "p1")]),
        [JVal.obj [("body", JVal.str "one")],
         JVal.obj [("body", JVal.str "two")]]) := by
  have h := claim_C4_read_post_filtering
    (JVal.obj [("data", JVal.obj [("children", JVal.arr
      [JVal.obj [("kind", JVal.str "t3"),
                 ("data", JVal.obj [("id", JVal.str "p1")])]])])])
    (JVal.obj [("data", JVal.obj [("children", JVal.arr
      [JVal.obj [("kind", JVal.str "more"),
                 ("data", JVal.obj [("count", JVal.num 3)])],
       JVal.obj [("kind", JVal.str "t1"),
                 ("data", JVal.obj [("body", JVal.str "one")])],
       JVal.obj [("kind", JVal.str "t1"),
                 ("data", JVal.obj [("body", JVal.str "two")])]])])])
    (JVal.obj [("kind", JVal.str "t3"),
               ("data", JVal.obj [("id", JVal.str "p1")])])
    (JVal.obj [("id", JVal.str "p1")])
    []
    [JVal.obj [("kind", JVal.str "more"),
               ("data", JVal.obj [("count", JVal.num 3)])],
     JVal.obj [("kind", JVal.str "t1"),
               ("data", JVal.obj [("body", JVal.str "one")])],
     JVal.obj [("kind", JVal.str "t1"),
               ("data", JVal.obj [("body", JVal.str "two")])]]
    rfl rfl rfl
    (by
      intro c hc
      simp only [List.mem_cons, List.not_mem_nil, or_false] at hc
      rcases hc with rfl | rfl | rfl
      · exact ⟨_, rfl⟩
      · exact ⟨_, rfl⟩
      · exact ⟨_, rfl⟩)
  exact h

end BirdReddit
